import Mathlib

/-!
Shallow embedding of the circadian-timer sun-schedule component and proofs
about its schedule derivation, fetch control flow and view logic.

The repository contains two variants of the same React component:
  * the basic variant `src/SunSchedule.tsx` (one bedtime, no persistence);
  * the persisted variant (file name unknown, `part_000`) with a toddler
    and an adult bedtime and a postal code saved in `localStorage`.

Instants are modelled as milliseconds since the Unix epoch, the value of
JavaScript `Date.getTime()`, as an `Int` (every field below called a time or
an instant is such a millisecond count).  Network calls are modelled by an
outcome parameter: either the parsed response (fetch and `response.json()`
succeeded) or a thrown error (network failure or unparsable body).
-/

namespace Circadian


/-! ## Persisted variant (`part_000`): data model -/

/-- The `Schedule` record of the persisted variant (`part_000`, lines 4-12). -/
structure Schedule where
  wakeTime : Int
  civilDawn : Int
  sunrise : Int
  sunset : Int
  civilDusk : Int
  toddlerBedTime : Int
  adultBedTime : Int
  deriving Repr, DecidableEq

/-- The `results` payload of the sunrise-sunset service (`part_000`, lines 25-28),
with the two timestamps already converted to instants (`new Date(...)`). -/
structure SunResults where
  sunrise : Int
  sunset : Int
  deriving Repr, DecidableEq

/-- The `SunResponse` shape of the sunrise-sunset service (`part_000`, lines 23-29). -/
structure SunResponse where
  status : String
  results : SunResults
  deriving Repr, DecidableEq

/-- Outcome of an awaited `fetch` plus `response.json()`: either the parsed
response, or a thrown error (network failure or malformed, unparsable body). -/
inductive FetchOutcome (α : Type) where
  | ok (response : α) : FetchOutcome α
  | threw : FetchOutcome α
  deriving Repr, DecidableEq

/-! ## Persisted variant: schedule derivation (`fetchSunData`, lines 163-169)

The JavaScript constant `2.5 * 60 * 60000` is the exact number `9000000`
(float arithmetic on these values is exact); it is written here as
`5 * 60 * 60000 / 2`, the same exact integer. -/

/-- Schedule derivation of the persisted variant (`part_000`, lines 163-179). -/
def deriveSchedule (sunriseTime sunsetTime : Int) : Schedule :=
  let civilDawn := sunriseTime - 35 * 60000
  let civilDusk := sunsetTime + 35 * 60000
  let wakeTime := civilDawn - 45 * 60000
  let adultBedTime := sunsetTime + 5 * 60 * 60000 / 2
  let toddlerBedTime := wakeTime - 11 * 60 * 60 * 1000
  { wakeTime := wakeTime
    civilDawn := civilDawn
    sunrise := sunriseTime
    sunset := sunsetTime
    civilDusk := civilDusk
    toddlerBedTime := toddlerBedTime
    adultBedTime := adultBedTime }

/-! ## Basic variant (`src/SunSchedule.tsx`): data model and derivation -/

/-- The `Schedule` record of the basic variant (`SunSchedule.tsx`, lines 4-11). -/
structure ScheduleBasic where
  wakeTime : Int
  civilDawn : Int
  sunrise : Int
  sunset : Int
  civilDusk : Int
  bedTime : Int
  deriving Repr, DecidableEq

/-- Schedule derivation of the basic variant (`SunSchedule.tsx`, lines 137-151). -/
def deriveScheduleBasic (sunriseTime sunsetTime : Int) : ScheduleBasic :=
  let civilDawn := sunriseTime - 35 * 60000
  let civilDusk := sunsetTime + 35 * 60000
  let wakeTime := civilDawn - 45 * 60000
  let bedTime := sunsetTime + 5 * 60 * 60000 / 2
  { wakeTime := wakeTime
    civilDawn := civilDawn
    sunrise := sunriseTime
    sunset := sunsetTime
    civilDusk := civilDusk
    bedTime := bedTime }

/-! ## Arithmetic claims about the derivation -/

/-- C1: for every pair of input instants, the derivation computes
`civilDawn = sunrise − 35 min`, `civilDusk = sunset + 35 min`,
`wakeTime = civilDawn − 45 min`, `adultBedTime = sunset + 150 min` and, in
the persisted variant, `toddlerBedTime = wakeTime − 660 min`, exactly, with
no rounding; the basic variant's `bedTime` is `sunset + 150 min`. -/
theorem schedule_offsets_exact (sr ss : Int) :
    (deriveSchedule sr ss).civilDawn = sr - 35 * 60000 ∧
    (deriveSchedule sr ss).civilDusk = ss + 35 * 60000 ∧
    (deriveSchedule sr ss).wakeTime = (deriveSchedule sr ss).civilDawn - 45 * 60000 ∧
    (deriveSchedule sr ss).adultBedTime = ss + 150 * 60000 ∧
    (deriveSchedule sr ss).toddlerBedTime = (deriveSchedule sr ss).wakeTime - 660 * 60000 ∧
    (deriveScheduleBasic sr ss).civilDawn = sr - 35 * 60000 ∧
    (deriveScheduleBasic sr ss).civilDusk = ss + 35 * 60000 ∧
    (deriveScheduleBasic sr ss).wakeTime = (deriveScheduleBasic sr ss).civilDawn - 45 * 60000 ∧
    (deriveScheduleBasic sr ss).bedTime = ss + 150 * 60000 := by
  simp [deriveSchedule, deriveScheduleBasic]

/-- C4: for sunrise 06:12 and sunset 19:47 on the same day (expressed as
minute offsets from that day's midnight instant `mid`), the derivation gives
civil dawn 05:37, wake 04:52, civil dusk 20:22, adult bedtime 22:17, and a
toddler bedtime of 17:52 on the previous calendar day (minute 1072 of the
day starting at `mid − 1440 min`), for every choice of the day. -/
theorem schedule_concrete_day (mid : Int) :
    deriveSchedule (mid + 372 * 60000) (mid + 1187 * 60000) =
      { wakeTime := mid + 292 * 60000
        civilDawn := mid + 337 * 60000
        sunrise := mid + 372 * 60000
        sunset := mid + 1187 * 60000
        civilDusk := mid + 1222 * 60000
        toddlerBedTime := (mid - 1440 * 60000) + 1072 * 60000
        adultBedTime := mid + 1337 * 60000 } := by
  simp [deriveSchedule, Schedule.mk.injEq]
  omega

/-- C8: every derived schedule satisfies the ordering
`toddlerBedTime < wakeTime < civilDawn < sunrise` and
`sunset < civilDusk < adultBedTime`, and `wakeTime` precedes `sunrise` by
exactly 80 minutes, for all input instants. -/
theorem schedule_ordering_invariant (sr ss : Int) :
    (deriveSchedule sr ss).toddlerBedTime < (deriveSchedule sr ss).wakeTime ∧
    (deriveSchedule sr ss).wakeTime < (deriveSchedule sr ss).civilDawn ∧
    (deriveSchedule sr ss).civilDawn < (deriveSchedule sr ss).sunrise ∧
    (deriveSchedule sr ss).sunset < (deriveSchedule sr ss).civilDusk ∧
    (deriveSchedule sr ss).civilDusk < (deriveSchedule sr ss).adultBedTime ∧
    (deriveSchedule sr ss).wakeTime = (deriveSchedule sr ss).sunrise - 80 * 60000 := by
  simp [deriveSchedule]
  omega

/-- C9: the two variants compute identical derivations on their shared
fields, and the basic variant's `bedTime` equals the persisted variant's
`adultBedTime`, for every pair of input instants. -/
theorem variants_agree (sr ss : Int) :
    (deriveScheduleBasic sr ss).wakeTime = (deriveSchedule sr ss).wakeTime ∧
    (deriveScheduleBasic sr ss).civilDawn = (deriveSchedule sr ss).civilDawn ∧
    (deriveScheduleBasic sr ss).sunrise = (deriveSchedule sr ss).sunrise ∧
    (deriveScheduleBasic sr ss).sunset = (deriveSchedule sr ss).sunset ∧
    (deriveScheduleBasic sr ss).civilDusk = (deriveSchedule sr ss).civilDusk ∧
    (deriveScheduleBasic sr ss).bedTime = (deriveSchedule sr ss).adultBedTime := by
  simp [deriveSchedule, deriveScheduleBasic]

/-! ## Persisted variant: postal-code lookup -/

/-- One entry of the postal-code service response (`part_000`, lines 14-21).
The service returns latitude and longitude as strings; the component applies
`parseFloat` when building coordinates.  The parsed float values play no role
in any control flow or claim, so coordinates are carried as their source
strings here. -/
structure ZipPlace where
  latitude : String
  longitude : String
  placeName : String
  state : String
  deriving Repr, DecidableEq

/-- The `ZipResponse` shape (`part_000`, lines 14-21): the `places` field is
optional. -/
structure ZipResponse where
  places : Option (List ZipPlace)
  deriving Repr, DecidableEq

/-- Successful result of `fetchZipCodeLocation` in the persisted variant:
coordinates plus the human-readable `place name, state` label. -/
structure ZipLocation where
  latitude : String
  longitude : String
  location : String
  deriving Repr, DecidableEq

/-- The message thrown by the `catch` of `fetchZipCodeLocation`
(`part_000` line 151, `SunSchedule.tsx` line 125). -/
def invalidZipMessage : String := "Invalid zip code. Please try again."

/-- The message thrown by the `catch` of `fetchSunData`
(`part_000` line 183, `SunSchedule.tsx` line 155). -/
def sunFetchFailedMessage : String := "Failed to fetch sun data. Please try again."

/-- Body of the `try` block of `fetchZipCodeLocation` (`part_000`,
lines 136-149) after the response has been parsed: a missing `places` field
or an empty list throws `Invalid zip code`; otherwise the first place yields
the coordinates and the location label. -/
def fetchZipCodeLocationTry (data : ZipResponse) : Except String ZipLocation :=
  match data.places with
  | none => .error "Invalid zip code"
  | some [] => .error "Invalid zip code"
  | some (p :: _) =>
      .ok { latitude := p.latitude, longitude := p.longitude,
            location := p.placeName ++ ", " ++ p.state }

/-- `fetchZipCodeLocation` of the persisted variant (`part_000`,
lines 134-153): any failure — the awaited network call or `response.json()`
throwing, or the body throwing — is caught and rethrown as the single
message `Invalid zip code. Please try again.`. -/
def fetchZipCodeLocation (out : FetchOutcome ZipResponse) : Except String ZipLocation :=
  match out with
  | .threw => .error invalidZipMessage
  | .ok data =>
      match fetchZipCodeLocationTry data with
      | .error _ => .error invalidZipMessage
      | .ok v => .ok v

/-! ## Basic variant: postal-code lookup -/

/-- One entry of the postal-code response in the basic variant
(`SunSchedule.tsx`, lines 13-18): only coordinates, no place name. -/
structure ZipPlaceBasic where
  latitude : String
  longitude : String
  deriving Repr, DecidableEq

/-- The `ZipResponse` shape of the basic variant (`SunSchedule.tsx`, lines 13-18). -/
structure ZipResponseBasic where
  places : Option (List ZipPlaceBasic)
  deriving Repr, DecidableEq

/-- Successful result of the basic variant's `fetchZipCodeLocation`: just the
coordinates. -/
structure CoordsBasic where
  latitude : String
  longitude : String
  deriving Repr, DecidableEq

/-- Body of the `try` block of the basic variant's `fetchZipCodeLocation`
(`SunSchedule.tsx`, lines 113-123). -/
def fetchZipCodeLocationBasicTry (data : ZipResponseBasic) : Except String CoordsBasic :=
  match data.places with
  | none => .error "Invalid zip code"
  | some [] => .error "Invalid zip code"
  | some (p :: _) => .ok { latitude := p.latitude, longitude := p.longitude }

/-- `fetchZipCodeLocation` of the basic variant (`SunSchedule.tsx`,
lines 111-127): every failure is rethrown as the same single message. -/
def fetchZipCodeLocationBasic (out : FetchOutcome ZipResponseBasic) :
    Except String CoordsBasic :=
  match out with
  | .threw => .error invalidZipMessage
  | .ok data =>
      match fetchZipCodeLocationBasicTry data with
      | .error _ => .error invalidZipMessage
      | .ok v => .ok v

/-! ## Persisted variant: component state and fetch control flow -/

/-- The component state of the persisted variant (`part_000`, lines 115-120):
one `useState` per field. -/
structure ComponentState where
  schedule : Option Schedule
  loading : Bool
  error : Option String
  zipCode : String
  useZipCode : Bool
  location : String
  deriving Repr, DecidableEq

/-- The initial component state (`part_000`, lines 115-120): no schedule,
loading, no error, empty code. -/
def initialComponentState : ComponentState :=
  { schedule := none, loading := true, error := none,
    zipCode := "", useZipCode := false, location := "" }

/-- `fetchSunData` of the persisted variant (`part_000`, lines 155-185), as a
state transformer over the outcome of the network call: it either completes,
returning the updated component state, or throws
`Failed to fetch sun data. Please try again.` (the `catch`).  When the parsed
response's `status` is `OK`, the derived schedule is stored and any prior
error cleared; for any other status the function completes with the state
unchanged, because the source has no `else` branch. -/
def fetchSunData (s : ComponentState) (out : FetchOutcome SunResponse) :
    Except String ComponentState :=
  match out with
  | .threw => .error sunFetchFailedMessage
  | .ok data =>
      if data.status = "OK" then
        .ok { s with
              schedule := some (deriveSchedule data.results.sunrise data.results.sunset)
              error := none }
      else
        .ok s

/-- The `localStorage` key for the saved postal code (`part_000`, line 32). -/
def ZIP_STORAGE_KEY : String := "lastUsedZipCode"

/-- Component state together with the value stored in `localStorage` under
`ZIP_STORAGE_KEY` (`none` when nothing is stored). -/
structure World where
  comp : ComponentState
  storedZip : Option String
  deriving Repr, DecidableEq

/-- `overrideZip || zipCode` (`part_000`, line 189): JavaScript `||` falls
back to the second operand when the first is `undefined` or the empty
string. -/
def zipToUse (overrideZip : Option String) (zipCode : String) : String :=
  match overrideZip with
  | some z => if z = "" then zipCode else z
  | none => zipCode

/-- `handleZipCodeSubmit` of the persisted variant (`part_000`,
lines 187-202), with the outcomes of the two awaited calls as parameters
(the sun-data outcome is only consulted when the lookup succeeds):
`setLoading(true)`, then lookup, then sun fetch, then
`localStorage.setItem(ZIP_STORAGE_KEY, zipToUse)` and `setLocation`; the
`catch` records the thrown message; the `finally` releases `loading`. -/
def handleZipCodeSubmit (w : World) (overrideZip : Option String)
    (zipOut : FetchOutcome ZipResponse) (sunOut : FetchOutcome SunResponse) : World :=
  let zip := zipToUse overrideZip w.comp.zipCode
  let s := { w.comp with loading := true }
  match fetchZipCodeLocation zipOut with
  | .error m =>
      { comp := { s with error := some m, loading := false }, storedZip := w.storedZip }
  | .ok loc =>
      match fetchSunData s sunOut with
      | .error m =>
          { comp := { s with error := some m, loading := false }, storedZip := w.storedZip }
      | .ok s2 =>
          { comp := { s2 with location := loc.location, loading := false },
            storedZip := some zip }

/-- The two ways the mount effect of the persisted variant can proceed
(`part_000`, lines 122-132): resubmit a saved code through
`handleZipCodeSubmit` (the postal-code strategy), or attempt device
geolocation via `getLocationAndSunData`. -/
inductive StartupAction where
  | submitSaved (zip : String) : StartupAction
  | geolocate : StartupAction
  deriving Repr, DecidableEq

/-- The mount effect of the persisted variant (`part_000`, lines 122-132):
read the saved postal code from storage; `if (savedZip)` is a JavaScript
truthiness test, false for `null` and for the empty string.  A truthy saved
code is submitted directly (geolocation is not attempted); otherwise
geolocation is attempted. -/
def startupAction (savedZip : Option String) : StartupAction :=
  match savedZip with
  | some z => if z = "" then .geolocate else .submitSaved z
  | none => .geolocate

/-- The `disabled` condition of the submit button, identical in both variants
(`part_000` line 272, `SunSchedule.tsx` line 232):
`loading || zipCode.length !== 5`. -/
def submitDisabled (loading : Bool) (zipCode : String) : Bool :=
  loading || zipCode.length != 5

/-! ## Basic variant: component state and fetch control flow -/

/-- The component state of the basic variant (`SunSchedule.tsx`,
lines 105-109). -/
structure ComponentStateBasic where
  schedule : Option ScheduleBasic
  loading : Bool
  error : Option String
  zipCode : String
  useZipCode : Bool
  deriving Repr, DecidableEq

/-- `fetchSunData` of the basic variant (`SunSchedule.tsx`, lines 129-157):
same control flow as the persisted variant, with the basic derivation. -/
def fetchSunDataBasic (s : ComponentStateBasic) (out : FetchOutcome SunResponse) :
    Except String ComponentStateBasic :=
  match out with
  | .threw => .error sunFetchFailedMessage
  | .ok data =>
      if data.status = "OK" then
        .ok { s with
              schedule := some (deriveScheduleBasic data.results.sunrise data.results.sunset)
              error := none }
      else
        .ok s

/-- `handleZipCodeSubmit` of the basic variant (`SunSchedule.tsx`,
lines 159-170): no storage and no location label. -/
def handleZipCodeSubmitBasic (s : ComponentStateBasic)
    (zipOut : FetchOutcome ZipResponseBasic) (sunOut : FetchOutcome SunResponse) :
    ComponentStateBasic :=
  let s1 := { s with loading := true }
  match fetchZipCodeLocationBasic zipOut with
  | .error m => { s1 with error := some m, loading := false }
  | .ok _ =>
      match fetchSunDataBasic s1 sunOut with
      | .error m => { s1 with error := some m, loading := false }
      | .ok s2 => { s2 with loading := false }

/-- The initial component state of the basic variant (`SunSchedule.tsx`,
lines 105-109). -/
def initialComponentStateBasic : ComponentStateBasic :=
  { schedule := none, loading := true, error := none, zipCode := "", useZipCode := false }

/-- The initial world of the persisted variant: initial component state and
nothing stored under `ZIP_STORAGE_KEY`. -/
def initialWorld : World := { comp := initialComponentState, storedZip := none }

/-- A successful postal-code response carrying one place, used as a concrete
lookup outcome in witnesses and counterexamples. -/
def zipOkResponse : ZipResponse :=
  { places := some [{ latitude := "40.71", longitude := "-74.00",
                      placeName := "New York", state := "NY" }] }

/-! ## Claims about the fetch control flow -/

/-- C2 (observed code behaviour at the failing input): when the parsed
sun-service response has a status other than `OK`, `fetchSunData` completes
normally with the component state entirely unchanged, in both variants — the
schedule is indeed not populated, but no error message is set either and
nothing is thrown, because the status check has no `else` branch. -/
theorem nonOK_status_leaves_state_unchanged (s : ComponentState)
    (sb : ComponentStateBasic) (data : SunResponse) (h : data.status ≠ "OK") :
    fetchSunData s (.ok data) = .ok s ∧ fetchSunDataBasic sb (.ok data) = .ok sb := by
  simp [fetchSunData, fetchSunDataBasic, h]

/-- Witness for `nonOK_status_leaves_state_unchanged` at a concrete
non-success response. -/
theorem nonOK_status_leaves_state_unchanged_witness :
    fetchSunData initialComponentState
        (.ok { status := "ERROR", results := { sunrise := 0, sunset := 0 } }) =
      .ok initialComponentState :=
  (nonOK_status_leaves_state_unchanged initialComponentState initialComponentStateBasic
    { status := "ERROR", results := { sunrise := 0, sunset := 0 } } (by decide)).1

/-- C3: in every failing submit cycle — the postal-code lookup fails (a
thrown network or parse error, a missing `places` field, or zero places, all
surfacing as a lookup error) or the sun-data call throws — the schedule is
left unchanged, in both variants; and unconditionally, the schedule after a
submit is either the previous one or a complete derived schedule, so no
partial schedule is ever produced. -/
theorem failed_fetch_leaves_schedule_unchanged
    (w : World) (ov : Option String)
    (zipOut : FetchOutcome ZipResponse) (sunOut : FetchOutcome SunResponse)
    (s : ComponentStateBasic) (zipOutB : FetchOutcome ZipResponseBasic)
    (hfail : (∃ m, fetchZipCodeLocation zipOut = .error m) ∨ sunOut = .threw)
    (hfailB : (∃ m, fetchZipCodeLocationBasic zipOutB = .error m) ∨ sunOut = .threw) :
    (handleZipCodeSubmit w ov zipOut sunOut).comp.schedule = w.comp.schedule ∧
    (handleZipCodeSubmitBasic s zipOutB sunOut).schedule = s.schedule ∧
    (∀ (w2 : World) (ov2 : Option String) (zipOut2 : FetchOutcome ZipResponse)
        (sunOut2 : FetchOutcome SunResponse),
      (handleZipCodeSubmit w2 ov2 zipOut2 sunOut2).comp.schedule = w2.comp.schedule ∨
      ∃ r : SunResults,
        (handleZipCodeSubmit w2 ov2 zipOut2 sunOut2).comp.schedule =
          some (deriveSchedule r.sunrise r.sunset)) := by
  refine ⟨?_, ?_, ?_⟩
  · rcases hfail with ⟨m, hm⟩ | rfl
    · simp [handleZipCodeSubmit, hm]
    · cases hz : fetchZipCodeLocation zipOut <;>
        simp [handleZipCodeSubmit, hz, fetchSunData]
  · rcases hfailB with ⟨m, hm⟩ | rfl
    · simp [handleZipCodeSubmitBasic, hm]
    · cases hz : fetchZipCodeLocationBasic zipOutB <;>
        simp [handleZipCodeSubmitBasic, hz, fetchSunDataBasic]
  · intro w2 ov2 zipOut2 sunOut2
    cases hz : fetchZipCodeLocation zipOut2 with
    | error m => left; simp [handleZipCodeSubmit, hz]
    | ok loc =>
      cases sunOut2 with
      | threw => left; simp [handleZipCodeSubmit, hz, fetchSunData]
      | ok data =>
        by_cases hst : data.status = "OK"
        · right
          exact ⟨data.results, by simp [handleZipCodeSubmit, hz, fetchSunData, hst]⟩
        · left
          simp [handleZipCodeSubmit, hz, fetchSunData, hst]

/-- Witness for `failed_fetch_leaves_schedule_unchanged`: a thrown lookup in
both variants, from the initial states. -/
theorem failed_fetch_leaves_schedule_unchanged_witness :
    (handleZipCodeSubmit initialWorld none .threw .threw).comp.schedule =
      initialWorld.comp.schedule :=
  (failed_fetch_leaves_schedule_unchanged initialWorld none .threw .threw
    initialComponentStateBasic .threw
    (Or.inl ⟨invalidZipMessage, rfl⟩) (Or.inl ⟨invalidZipMessage, rfl⟩)).1

/-- C5 counterexample: with `loading` false and the entered code `"abcde"` —
a string of five characters, none of them numeric — the submit button is
enabled (`submitDisabled` is `false`), refuting the claim that the control is
disabled whenever the code is not a string of exactly 5 numeric characters. -/
theorem submit_enabled_for_nonnumeric_code :
    submitDisabled false "abcde" = false ∧
    "abcde".length = 5 ∧
    "abcde".data.all Char.isDigit = false := by
  refine ⟨rfl, rfl, rfl⟩

/-- C5 amended: the submit control is disabled exactly when a cycle is in
progress or the entered code's length differs from 5; equivalently,
submission is possible exactly when not loading and the code has exactly
five characters — whether those characters are digits is not part of the
button's condition (only the input element's pattern attribute mentions
digits). -/
theorem submit_disabled_iff (loading : Bool) (zip : String) :
    submitDisabled loading zip = false ↔ loading = false ∧ zip.length = 5 := by
  cases loading <;> simp [submitDisabled]

/-- Witness for `submit_disabled_iff` at a concrete five-character code. -/
theorem submit_disabled_iff_witness : submitDisabled false "12345" = false :=
  (submit_disabled_iff false "12345").mpr ⟨rfl, rfl⟩

/-- C6 counterexample: a submit in which the postal-code lookup succeeds —
the response carries a place, so resolution yields coordinates — but the
sun-data call throws saves nothing to storage, refuting the claim that the
code is saved on every submission whose resolution succeeds. -/
theorem zip_not_saved_on_sun_fetch_failure :
    fetchZipCodeLocation (.ok zipOkResponse) =
      .ok { latitude := "40.71", longitude := "-74.00", location := "New York, NY" } ∧
    (handleZipCodeSubmit initialWorld (some "10001") (.ok zipOkResponse) .threw).storedZip
      = none := by
  refine ⟨rfl, rfl⟩

/-- C6 amended: the submitted code is saved (as the value stored in the
world, i.e. under the fixed key) exactly when the postal-code lookup
succeeds and the subsequent sun-data call does not throw: on lookup failure
the stored value is unchanged — in particular the code is never saved when
resolution fails — likewise when the sun-data call throws; and when both
steps complete, the code used for the submit is saved. -/
theorem zip_saved_iff_full_cycle_succeeds (w : World) (ov : Option String)
    (zipOut : FetchOutcome ZipResponse) (sunOut : FetchOutcome SunResponse) :
    (∀ m, fetchZipCodeLocation zipOut = .error m →
      (handleZipCodeSubmit w ov zipOut sunOut).storedZip = w.storedZip) ∧
    ((handleZipCodeSubmit w ov zipOut .threw).storedZip = w.storedZip) ∧
    (∀ v, fetchZipCodeLocation zipOut = .ok v → sunOut ≠ .threw →
      (handleZipCodeSubmit w ov zipOut sunOut).storedZip =
        some (zipToUse ov w.comp.zipCode)) := by
  refine ⟨?_, ?_, ?_⟩
  · intro m hm
    simp [handleZipCodeSubmit, hm]
  · cases hz : fetchZipCodeLocation zipOut <;>
      simp [handleZipCodeSubmit, hz, fetchSunData]
  · intro v hv hs
    cases sunOut with
    | threw => exact absurd rfl hs
    | ok data =>
      by_cases hst : data.status = "OK" <;>
        simp [handleZipCodeSubmit, hv, fetchSunData, hst]

/-- Witness for `zip_saved_iff_full_cycle_succeeds`: a fully successful
submit from the initial world saves the submitted code. -/
theorem zip_saved_iff_full_cycle_succeeds_witness :
    (handleZipCodeSubmit initialWorld (some "10001") (.ok zipOkResponse)
        (.ok { status := "OK", results := { sunrise := 0, sunset := 0 } })).storedZip
      = some "10001" :=
  (zip_saved_iff_full_cycle_succeeds initialWorld (some "10001") (.ok zipOkResponse)
      (.ok { status := "OK", results := { sunrise := 0, sunset := 0 } })).2.2
    { latitude := "40.71", longitude := "-74.00", location := "New York, NY" }
    rfl (by simp)

/-- C7: on startup with a saved (truthy, hence non-empty) postal code, device
geolocation is not attempted and the saved code is submitted directly
through the postal-code strategy — it is exactly the code that submit then
uses, whatever the form field holds; with no saved code, geolocation is
attempted first. -/
theorem startup_uses_saved_zip (z : String) (hz : z ≠ "") :
    startupAction (some z) = .submitSaved z ∧
    startupAction none = .geolocate ∧
    (∀ zipCode : String, zipToUse (some z) zipCode = z) := by
  refine ⟨?_, rfl, ?_⟩
  · simp [startupAction, hz]
  · intro zc
    simp [zipToUse, hz]

/-- Witness for `startup_uses_saved_zip` at a concrete saved code. -/
theorem startup_uses_saved_zip_witness :
    startupAction (some "12345") = StartupAction.submitSaved "12345" :=
  (startup_uses_saved_zip "12345" (by decide)).1

/-- C10: every failure of the postal-code lookup — a thrown network error or
unparsable response, a response without a `places` field, or a response with
zero places — produces the single message
`Invalid zip code. Please try again.`, in both variants; and every error the
lookup can ever produce is that message, so a transient network outage
during lookup is reported as an invalid postal code. -/
theorem zip_lookup_single_error_message :
    fetchZipCodeLocation .threw = .error invalidZipMessage ∧
    fetchZipCodeLocationBasic .threw = .error invalidZipMessage ∧
    (∀ data : ZipResponse, data.places = none ∨ data.places = some [] →
      fetchZipCodeLocation (.ok data) = .error invalidZipMessage) ∧
    (∀ data : ZipResponseBasic, data.places = none ∨ data.places = some [] →
      fetchZipCodeLocationBasic (.ok data) = .error invalidZipMessage) ∧
    (∀ (out : FetchOutcome ZipResponse) (m : String),
      fetchZipCodeLocation out = .error m → m = invalidZipMessage) ∧
    (∀ (out : FetchOutcome ZipResponseBasic) (m : String),
      fetchZipCodeLocationBasic out = .error m → m = invalidZipMessage) := by
  refine ⟨rfl, rfl, ?_, ?_, ?_, ?_⟩
  · rintro ⟨places⟩ (h | h) <;>
      simp_all [fetchZipCodeLocation, fetchZipCodeLocationTry]
  · rintro ⟨places⟩ (h | h) <;>
      simp_all [fetchZipCodeLocationBasic, fetchZipCodeLocationBasicTry]
  · intro out m h
    cases out with
    | threw =>
      simp [fetchZipCodeLocation] at h
      simp_all
    | ok data =>
      cases ht : fetchZipCodeLocationTry data <;>
        simp_all [fetchZipCodeLocation]
  · intro out m h
    cases out with
    | threw =>
      simp [fetchZipCodeLocationBasic] at h
      simp_all
    | ok data =>
      cases ht : fetchZipCodeLocationBasicTry data <;>
        simp_all [fetchZipCodeLocationBasic]

/-- Witness for `zip_lookup_single_error_message`: a zero-places response
yields the invalid-code message. -/
theorem zip_lookup_single_error_message_witness :
    fetchZipCodeLocation (.ok { places := some [] }) = .error invalidZipMessage :=
  zip_lookup_single_error_message.2.2.1 { places := some [] } (Or.inr rfl)

end Circadian
